import Mathlib

/-!
Verification of the sidecar-process supervisor in
`packages/app/src-tauri/src/lib.rs`.

The source manages a single backend child process:
* `SERVER_PROCESS : Lazy<Arc<Mutex<Option<Child>>>>`, initialized to `None`;
* `is_server_running()` probes `127.0.0.1:3000` with `TcpStream::connect(..).is_ok()`;
* `shutdown_server()` locks the cell, kills the held child (panicking on
  failure via `expect`), and sets the cell to `None`;
* the setup closure inside `run()` probes, spawns `elizaos start` when the
  probe fails (panicking on spawn failure via `expect`), and stores the
  handle; the window-close and app-exit events both invoke `shutdown_server`.

The embedding makes the OS interactions explicit through an environment
record `Env` (outcome of the TCP connect, of `Command::spawn`, of
`Child::kill`, and whether the mutex is poisoned).  Each operation returns a
`StepResult` recording the cell contents when the call returned or panicked,
the kill and spawn calls it issued, its log lines, and the panic message if a
`expect` fired.  Rust's `expect`-induced panic is modeled as `panic := some
msg`; code after the panicking expression is not executed, so the fields
reflect the state at the moment of unwinding (in particular the mutex guard
is dropped without the trailing `*guard = None` running).
-/

/-- Causes a TCP connection attempt can fail with.  The source never
distinguishes them: `is_server_running` only calls `.is_ok()`. -/
inductive ConnError where
  | refused
  | timedOut
  | unreachable
deriving DecidableEq, Repr

/-- A spawned backend process handle (`std::process::Child` in the source,
`ProcessHandle` in the specification), identified by its pid. -/
abbrev Child := Nat

/-- The OS-level outcomes the supervisor code can observe: the result of
connecting to `127.0.0.1:3000`, the result of `Command::spawn` (`none` means
the OS rejected the spawn), whether `Child::kill` succeeds on a given pid,
and whether the `SERVER_PROCESS` mutex is poisoned. -/
structure Env where
  connect : String → Except ConnError Unit
  spawnResult : Option Child
  killOk : Child → Bool
  lockPoisoned : Bool

/-- `Result::is_ok` on `Except`. -/
def except_is_ok {ε α : Type} : Except ε α → Bool
  | Except.ok _ => true
  | Except.error _ => false

/-- `TcpStream::connect` under environment `e`. -/
def tcp_connect (e : Env) (addr : String) : Except ConnError Unit :=
  e.connect addr

/-- Embeds `is_server_running` (lib.rs lines 9-11):
`TcpStream::connect("127.0.0.1:3000").is_ok()`. -/
def is_server_running (e : Env) : Bool :=
  except_is_ok (tcp_connect e "127.0.0.1:3000")

/-- Observable outcome of one supervisor operation: the contents of the
`SERVER_PROCESS` cell when the call returned (or panicked), the pids on
which `kill` was invoked, the pids of processes created by `spawn`, the
`println!` lines emitted, and the panic message when an `expect` fired
(`none` = returned normally). -/
structure StepResult where
  cell : Option Child
  kills : List Child
  spawns : List Child
  logs : List String
  panic : Option String
deriving DecidableEq, Repr

/-- The initial value of the `SERVER_PROCESS` cell (lib.rs lines 6-7):
`Lazy::new(|| Arc::new(Mutex::new(None)))`. -/
def SERVER_PROCESS_init : Option Child := none

/-- Embeds `shutdown_server` (lib.rs lines 13-21).  It prints, locks the
mutex (panicking if poisoned), kills the held child if any (panicking if the
kill fails, in which case the trailing `*guard = None` never runs), and
clears the cell. -/
def shutdown_server (e : Env) (c : Option Child) : StepResult :=
  if e.lockPoisoned then
    { cell := c, kills := [], spawns := [],
      logs := ["Shutting down Eliza server..."],
      panic := some "SERVER_PROCESS mutex should not be poisoned" }
  else
    match c with
    | some child =>
      if e.killOk child then
        { cell := none, kills := [child], spawns := [],
          logs := ["Shutting down Eliza server...",
                   "Eliza server shut down successfully"],
          panic := none }
      else
        { cell := some child, kills := [child], spawns := [],
          logs := ["Shutting down Eliza server..."],
          panic := some "Failed to kill Eliza server process" }
    | none =>
      { cell := none, kills := [], spawns := [],
        logs := ["Shutting down Eliza server..."],
        panic := none }

/-- Embeds the server-management part of the `setup` closure in `run`
(lib.rs lines 29-40) — the operation the specification calls
`ensure_started()`.  If the probe fails it spawns `elizaos start`
(panicking on spawn failure), then locks the mutex (panicking if poisoned;
note the child has already been created at that point) and stores the
handle; if the probe succeeds it only logs. -/
def run_setup (e : Env) (c : Option Child) : StepResult :=
  if !is_server_running e then
    match e.spawnResult with
    | some child =>
      if e.lockPoisoned then
        { cell := c, kills := [], spawns := [child],
          logs := ["Starting Eliza server..."],
          panic := some "SERVER_PROCESS mutex should not be poisoned" }
      else
        { cell := some child, kills := [], spawns := [child],
          logs := ["Starting Eliza server...",
                   "Eliza server process started"],
          panic := none }
    | none =>
      { cell := c, kills := [], spawns := [],
        logs := ["Starting Eliza server..."],
        panic := some "Failed to start Eliza server" }
  else
    { cell := c, kills := [], spawns := [],
      logs := ["Eliza server is already running"],
      panic := none }

/-- The window `CloseRequested` handler (lib.rs lines 45-49) just calls
`shutdown_server`. -/
def on_close_requested (e : Env) (c : Option Child) : StepResult :=
  shutdown_server e c

/-- The `RunEvent::Exit` handler (lib.rs lines 58-62) just calls
`shutdown_server`. -/
def on_run_exit (e : Env) (c : Option Child) : StepResult :=
  shutdown_server e c

/-- A supervisor operation on the shared cell: either the `ensure_started`
logic of the setup closure, or `shutdown_server`, each under its own
environment. -/
inductive Op where
  | ensure : Env → Op
  | shut : Env → Op

/-- One transition of the `SERVER_PROCESS` cell. -/
def step (op : Op) (c : Option Child) : StepResult :=
  match op with
  | Op.ensure e => run_setup e c
  | Op.shut e => shutdown_server e c

/-- A sequence of `shutdown_server` calls (each under its own environment),
returning the final cell contents and the concatenation of all kill calls
issued.  The lock serializes concurrent callers, so any interleaving is some
such sequence. -/
def shutdownN : List Env → Option Child → Option Child × List Child
  | [], c => (c, [])
  | e :: es, c =>
    let r := shutdown_server e c
    let rest := shutdownN es r.cell
    (rest.1, r.kills ++ rest.2)

/-- Environment for concrete witnesses: nothing listening on the port, spawn
yields pid 1, kills succeed, lock healthy. -/
def envStart : Env :=
  { connect := fun _ => Except.error ConnError.refused,
    spawnResult := some 1,
    killOk := fun _ => true,
    lockPoisoned := false }

/-- Witness environment: a listener is bound (connect succeeds). -/
def envUp : Env :=
  { connect := fun _ => Except.ok (),
    spawnResult := some 2,
    killOk := fun _ => true,
    lockPoisoned := false }

/-- Witness environment: nothing listening and the OS rejects the spawn. -/
def envNoSpawn : Env :=
  { connect := fun _ => Except.error ConnError.refused,
    spawnResult := none,
    killOk := fun _ => true,
    lockPoisoned := false }

/-- Witness environment: kills fail, lock healthy. -/
def envKillFail : Env :=
  { connect := fun _ => Except.error ConnError.refused,
    spawnResult := some 1,
    killOk := fun _ => false,
    lockPoisoned := false }

/-- Witness environment: the `SERVER_PROCESS` mutex is poisoned. -/
def envPoisoned : Env :=
  { connect := fun _ => Except.error ConnError.refused,
    spawnResult := some 1,
    killOk := fun _ => true,
    lockPoisoned := true }

theorem shutdownN_of_none (envs : List Env)
    (h : ∀ e ∈ envs, e.lockPoisoned = false) :
    shutdownN envs none = (none, []) := by
  induction envs with
  | nil => rfl
  | cons e es ih =>
    have he := h e (List.mem_cons_self e es)
    have hes : ∀ x ∈ es, x.lockPoisoned = false :=
      fun x hx => h x (List.mem_cons_of_mem e hx)
    simp [shutdownN, shutdown_server, he, ih hes]

/-- C1: after a single successful `ensure_started` (probe false, spawn
succeeded, lock healthy) starting from the initial empty cell, every
sequence of N ≥ 1 `shutdown_server` calls (each with a healthy lock and a
kill that succeeds) kills the spawned child exactly once, and the shared
cell ends at `none`. -/
theorem C1_idempotent_shutdown (e0 : Env) (envs : List Env) (p : Child)
    (hprobe : is_server_running e0 = false)
    (hspawn : e0.spawnResult = some p)
    (hlock : e0.lockPoisoned = false)
    (hN : envs ≠ [])
    (hall : ∀ e ∈ envs, e.lockPoisoned = false ∧ e.killOk p = true) :
    (run_setup e0 SERVER_PROCESS_init).cell = some p ∧
    (shutdownN envs (run_setup e0 SERVER_PROCESS_init).cell).1 = none ∧
    (shutdownN envs (run_setup e0 SERVER_PROCESS_init).cell).2 = [p] := by
  have hcell : (run_setup e0 SERVER_PROCESS_init).cell = some p := by
    simp [run_setup, hprobe, hspawn, hlock, SERVER_PROCESS_init]
  refine ⟨hcell, ?_⟩
  rw [hcell]
  match envs, hN with
  | e :: es, _ =>
    have he := hall e (List.mem_cons_self e es)
    have hes : ∀ x ∈ es, x.lockPoisoned = false :=
      fun x hx => (hall x (List.mem_cons_of_mem e hx)).1
    have hrest := shutdownN_of_none es hes
    simp [shutdownN, shutdown_server, he.1, he.2, hrest]

theorem C1_idempotent_shutdown_witness :
    (is_server_running envStart = false ∧ envStart.spawnResult = some 1 ∧
      envStart.lockPoisoned = false ∧ ([envStart, envStart] : List Env) ≠ []) ∧
    ((run_setup envStart SERVER_PROCESS_init).cell = some 1 ∧
      (shutdownN [envStart, envStart]
        (run_setup envStart SERVER_PROCESS_init).cell).1 = none ∧
      (shutdownN [envStart, envStart]
        (run_setup envStart SERVER_PROCESS_init).cell).2 = [1]) :=
  ⟨⟨rfl, rfl, rfl, List.cons_ne_nil envStart [envStart]⟩,
    C1_idempotent_shutdown envStart [envStart, envStart] 1 rfl rfl rfl
      (List.cons_ne_nil envStart [envStart])
      (by
        intro e he
        have : e = envStart := by
          rcases List.mem_cons.mp he with h | h
          · exact h
          · rcases List.mem_cons.mp h with h2 | h2
            · exact h2
            · exact absurd h2 (List.not_mem_nil e)
        subst this
        exact ⟨rfl, rfl⟩)⟩

/-- C2: the `SERVER_PROCESS` cell starts at `none`; it holds at most one
handle at a time (it is an `Option`); under any supervisor operation it
either stays unchanged, or is populated by the `ensure_started` logic —
and then only when the probe reported not-running, the spawn succeeded and
the lock was healthy — or is emptied by `shutdown_server`.  No other
transition exists. -/
theorem C2_cell_lifecycle (op : Op) (c : Option Child) :
    SERVER_PROCESS_init = none ∧
    ((step op c).cell = c ∨
      (∃ e p, op = Op.ensure e ∧ (step op c).cell = some p ∧ c ≠ some p ∧
        is_server_running e = false ∧ e.spawnResult = some p ∧
        e.lockPoisoned = false) ∨
      (∃ e, op = Op.shut e ∧ c ≠ none ∧ (step op c).cell = none)) := by
  refine ⟨rfl, ?_⟩
  match op with
  | Op.ensure e =>
    by_cases hp : is_server_running e
    · left; simp [step, run_setup, hp]
    · match hs : e.spawnResult with
      | none => left; simp [step, run_setup, hp, hs]
      | some p =>
        by_cases hl : e.lockPoisoned
        · left; simp [step, run_setup, hp, hs, hl]
        · by_cases hc : c = some p
          · left
            simp [step, run_setup, hp, hs, hl, hc]
          · right; left
            exact ⟨e, p, rfl, by simp [step, run_setup, hp, hs, hl], hc,
              by simp [hp], hs, by simp [hl]⟩
  | Op.shut e =>
    by_cases hl : e.lockPoisoned
    · left; simp [step, shutdown_server, hl]
    · match c with
      | none => left; simp [step, shutdown_server, hl]
      | some p =>
        by_cases hk : e.killOk p
        · right; right
          exact ⟨e, rfl, by simp, by simp [step, shutdown_server, hl, hk]⟩
        · left; simp [step, shutdown_server, hl, hk]

/-- C3: when the probe reports the server running, the setup logic spawns
nothing, leaves the cell unchanged, panics with nothing, and logs
"Eliza server is already running". -/
theorem C3_start_once (e : Env) (c : Option Child)
    (h : is_server_running e = true) :
    (run_setup e c).spawns = [] ∧ (run_setup e c).cell = c ∧
    (run_setup e c).panic = none ∧
    (run_setup e c).logs = ["Eliza server is already running"] := by
  simp [run_setup, h]

theorem C3_start_once_witness :
    is_server_running envUp = true ∧
    ((run_setup envUp none).spawns = [] ∧ (run_setup envUp none).cell = none ∧
      (run_setup envUp none).panic = none ∧
      (run_setup envUp none).logs = ["Eliza server is already running"]) :=
  ⟨rfl, C3_start_once envUp none rfl⟩

/-- C4: `is_server_running` is true exactly when the TCP connect to
`127.0.0.1:3000` succeeds, and false exactly when the connect fails with
some error — whichever cause; no distinction reaches the caller. -/
theorem C4_probe_contract (e : Env) :
    (is_server_running e = true ↔
      e.connect "127.0.0.1:3000" = Except.ok ()) ∧
    (is_server_running e = false ↔
      ∃ err, e.connect "127.0.0.1:3000" = Except.error err) := by
  unfold is_server_running tcp_connect
  match h : e.connect "127.0.0.1:3000" with
  | Except.ok _ => simp [except_is_ok]
  | Except.error err => simp [except_is_ok]

theorem C4_probe_contract_witness :
    ((is_server_running envStart = true ↔
      envStart.connect "127.0.0.1:3000" = Except.ok ()) ∧
    (is_server_running envStart = false ↔
      ∃ err, envStart.connect "127.0.0.1:3000" = Except.error err)) :=
  C4_probe_contract envStart

/-- C5: with the cell at `none` (and the lock healthy, which is the only
possibility when no kill was ever attempted, since the kill `expect` is the
sole panic site inside the critical section), `shutdown_server` issues no
kill and completes without a panic, leaving the cell at `none`. -/
theorem C5_noop_shutdown_unstarted (e : Env) (h : e.lockPoisoned = false) :
    (shutdown_server e none).kills = [] ∧
    (shutdown_server e none).panic = none ∧
    (shutdown_server e none).cell = none := by
  simp [shutdown_server, h]

theorem C5_noop_shutdown_unstarted_witness :
    envStart.lockPoisoned = false ∧
    ((shutdown_server envStart none).kills = [] ∧
      (shutdown_server envStart none).panic = none ∧
      (shutdown_server envStart none).cell = none) :=
  ⟨rfl, C5_noop_shutdown_unstarted envStart rfl⟩

/-- C6: when the probe reports not-running and the spawn fails, the setup
logic panics (the `expect` message of line 34), storing no handle: the cell
is unchanged and no process was created. -/
theorem C6_spawn_failure_fatal (e : Env) (c : Option Child)
    (hprobe : is_server_running e = false)
    (hspawn : e.spawnResult = none) :
    (run_setup e c).panic = some "Failed to start Eliza server" ∧
    (run_setup e c).cell = c ∧ (run_setup e c).spawns = [] := by
  simp [run_setup, hprobe, hspawn]

theorem C6_spawn_failure_fatal_witness :
    (is_server_running envNoSpawn = false ∧ envNoSpawn.spawnResult = none) ∧
    ((run_setup envNoSpawn none).panic = some "Failed to start Eliza server" ∧
      (run_setup envNoSpawn none).cell = none ∧
      (run_setup envNoSpawn none).spawns = []) :=
  ⟨⟨rfl, rfl⟩, C6_spawn_failure_fatal envNoSpawn none rfl rfl⟩

/-- C7: with a healthy lock, a held handle, and a kill the OS refuses,
`shutdown_server` requested the kill and then panicked (the `expect` of
line 17): the strict reference policy hard-aborts on termination failure. -/
theorem C7_kill_failure_fatal (e : Env) (p : Child)
    (hlock : e.lockPoisoned = false)
    (hkill : e.killOk p = false) :
    (shutdown_server e (some p)).kills = [p] ∧
    (shutdown_server e (some p)).panic =
      some "Failed to kill Eliza server process" := by
  simp [shutdown_server, hlock, hkill]

theorem C7_kill_failure_fatal_witness :
    (envKillFail.lockPoisoned = false ∧ envKillFail.killOk 1 = false) ∧
    ((shutdown_server envKillFail (some 1)).kills = [1] ∧
      (shutdown_server envKillFail (some 1)).panic =
        some "Failed to kill Eliza server process") :=
  ⟨⟨rfl, rfl⟩, C7_kill_failure_fatal envKillFail 1 rfl rfl⟩

/-- C8 counterexample: the claim says a fatal error during shutdown is
logged and execution continues so the host can exit normally; but at the
concrete input (healthy lock, handle held, kill refused) `shutdown_server`
panics — execution does not continue: no completion line is logged and the
cell is not cleared. -/
theorem C8_counterexample :
    ¬ ((shutdown_server envKillFail (some 1)).panic = none ∧
        (shutdown_server envKillFail (some 1)).cell = none) := by
  decide

/-- C8 amended: a fatal error during `shutdown_server` (termination
failure) is not recovered: the call panics instead of continuing, logs no
completion, and leaves the cell still holding the handle.  The host
application is taken down by the propagating panic rather than by logging
and continuing to a normal exit. -/
theorem C8_shutdown_abort_not_continue (e : Env) (p : Child)
    (hlock : e.lockPoisoned = false)
    (hkill : e.killOk p = false) :
    (shutdown_server e (some p)).panic ≠ none ∧
    (shutdown_server e (some p)).cell = some p ∧
    (shutdown_server e (some p)).logs = ["Shutting down Eliza server..."] := by
  simp [shutdown_server, hlock, hkill]

theorem C8_shutdown_abort_not_continue_witness :
    (envKillFail.lockPoisoned = false ∧ envKillFail.killOk 1 = false) ∧
    ((shutdown_server envKillFail (some 1)).panic ≠ none ∧
      (shutdown_server envKillFail (some 1)).cell = some 1 ∧
      (shutdown_server envKillFail (some 1)).logs =
        ["Shutting down Eliza server..."]) :=
  ⟨⟨rfl, rfl⟩, C8_shutdown_abort_not_continue envKillFail 1 rfl rfl⟩

/-- C9: with the mutex poisoned, `shutdown_server` panics at the lock
acquisition (kills nothing, touches nothing), and the setup logic, on the
path where it reaches its lock acquisition (probe false, spawn succeeded),
panics likewise and stores nothing. -/
theorem C9_lock_failure_fatal (e : Env) (c : Option Child) (p : Child)
    (hlock : e.lockPoisoned = true) :
    ((shutdown_server e c).panic =
        some "SERVER_PROCESS mutex should not be poisoned" ∧
      (shutdown_server e c).kills = [] ∧
      (shutdown_server e c).cell = c) ∧
    (is_server_running e = false → e.spawnResult = some p →
      (run_setup e c).panic =
          some "SERVER_PROCESS mutex should not be poisoned" ∧
        (run_setup e c).cell = c) := by
  constructor
  · simp [shutdown_server, hlock]
  · intro hprobe hspawn
    simp [run_setup, hprobe, hspawn, hlock]

theorem C9_lock_failure_fatal_witness :
    (envPoisoned.lockPoisoned = true ∧ is_server_running envPoisoned = false ∧
      envPoisoned.spawnResult = some 1) ∧
    (((shutdown_server envPoisoned (some 1)).panic =
        some "SERVER_PROCESS mutex should not be poisoned" ∧
      (shutdown_server envPoisoned (some 1)).kills = [] ∧
      (shutdown_server envPoisoned (some 1)).cell = some 1) ∧
    (is_server_running envPoisoned = false →
      envPoisoned.spawnResult = some 1 →
      (run_setup envPoisoned (some 1)).panic =
          some "SERVER_PROCESS mutex should not be poisoned" ∧
        (run_setup envPoisoned (some 1)).cell = some 1)) :=
  ⟨⟨rfl, rfl, rfl⟩, C9_lock_failure_fatal envPoisoned (some 1) 1 rfl⟩

/-- C10: with a healthy lock, when the held handle's kill fails the panic
fires before the `*guard = None` assignment, so the cell still holds the
handle; and the cell ends at `none` exactly when it was already empty or
the kill succeeded. -/
theorem C10_no_clear_on_kill_failure (e : Env) (p : Child) (c : Option Child)
    (hlock : e.lockPoisoned = false) :
    (e.killOk p = false →
      (shutdown_server e (some p)).cell = some p ∧
      (shutdown_server e (some p)).kills = [p] ∧
      (shutdown_server e (some p)).panic ≠ none) ∧
    ((shutdown_server e c).cell = none ↔
      (c = none ∨ ∃ q, c = some q ∧ e.killOk q = true)) := by
  constructor
  · intro hkill
    simp [shutdown_server, hlock, hkill]
  · match c with
    | none => simp [shutdown_server, hlock]
    | some q =>
      by_cases hk : e.killOk q
      · simp [shutdown_server, hlock, hk]
      · simp [shutdown_server, hlock, hk]

theorem C10_no_clear_on_kill_failure_witness :
    envKillFail.lockPoisoned = false ∧
    ((envKillFail.killOk 1 = false →
      (shutdown_server envKillFail (some 1)).cell = some 1 ∧
      (shutdown_server envKillFail (some 1)).kills = [1] ∧
      (shutdown_server envKillFail (some 1)).panic ≠ none) ∧
    ((shutdown_server envKillFail (some 1)).cell = none ↔
      ((some 1 : Option Child) = none ∨
        ∃ q, (some 1 : Option Child) = some q ∧ envKillFail.killOk q = true))) :=
  ⟨rfl, C10_no_clear_on_kill_failure envKillFail 1 (some 1) rfl⟩
